import Mathlib

/-!
Shallow embedding of the Purrimeter-Defense pipeline core
(backend/services/rule_engine.py, pipeline_manager.py, camera_stream.py,
sam3_service.py, recording_service.py, backend/config.py), together with
proofs settling the behavioural claims about it.

Python dicts are embedded as association lists over `String` keys
(`dictLookup` / `dictSet` / `dictDel`); a Python dict never holds two
entries with the same key, `dictSet` replaces the first matching entry in
place (or appends at the end, as dict insertion does), and `dictDel`
removes every entry with the key, which on unique-key states is exactly
the removal of the single entry.  Wall-clock instants (`datetime`) are
embedded as natural-number ticks; `datetime` arithmetic in the sources
only ever adds a number of seconds and compares, which the `Nat` model
reproduces exactly.
-/

namespace PD

/-! ### Python dict embedding -/

def dictLookup {α : Type} : List (String × α) → String → Option α
  | [], _ => none
  | p :: rest, k => if p.1 == k then some p.2 else dictLookup rest k

def dictSet {α : Type} : List (String × α) → String → α → List (String × α)
  | [], k, v => [(k, v)]
  | p :: rest, k, v => if p.1 == k then (k, v) :: rest else p :: dictSet rest k v

def dictDel {α : Type} (d : List (String × α)) (k : String) : List (String × α) :=
  d.filter (fun p => p.1 ≠ k)

/-! ### backend/config.py (Settings) -/

/-- Embeds `Settings.DETECTION_CONSECUTIVE_FRAMES = 1` (config.py line 51). -/
def DETECTION_CONSECUTIVE_FRAMES : Nat := 1

/-- Embeds `Settings.FRAME_BUFFER_SIZE = 150` (config.py line 46). -/
def FRAME_BUFFER_SIZE : Nat := 150

/-! ### Rule and per-rule runtime state (rule_engine.py) -/

/-- The fields of `database.Rule` that the rule engine's state machine
reads.  Condition parameters and targets feed `_evaluate_single_rule`,
whose outcome enters the claims only through the `triggered` flag of a
`RuleEvaluation`, so they are not carried here. -/
structure Rule where
  id : String
  cameraId : String
  name : String
  enabled : Bool
  cooldownSeconds : Nat
  deriving Repr, DecidableEq

/-- Embeds `RuleState` (rule_engine.py lines 30-38), with `datetime` instants as
`Nat` ticks and the alert id as an optional string. -/
structure RuleState where
  rule : Rule
  lastTriggered : Option Nat := none
  currentAlertId : Option String := none
  isInAlert : Bool := false
  consecutiveDetections : Nat := 0
  requiredConsecutive : Nat := 1
  deriving Repr, DecidableEq

/-- The engine's `_rule_states` dict. -/
abbrev RuleStates : Type := List (String × RuleState)

/-- Observable events of the engine and the pipeline manager:
`installState r` is the assignment of a fresh `RuleState` for rule `r`
(rule_engine.py line 89), `alertStart` / `alertEnd` are one round of the
registered alert-start / alert-end callbacks, and `internalAlertEnd` is
the direct call of `PipelineManager._on_alert_ended`
(pipeline_manager.py line 190). -/
inductive REvent where
  | installState (ruleId : String)
  | alertStart (alertId : String) (ruleId : String)
  | alertEnd (alertId : Option String) (ruleId : String)
  | internalAlertEnd (alertId : String) (ruleId : String)
  deriving Repr, DecidableEq

def isAlertStartEvent : REvent → Bool
  | .alertStart _ _ => true
  | _ => false

def isAlertEndFor (aid : String) : REvent → Bool
  | .alertEnd a _ => a == some aid
  | _ => false

def isInstallFor (rid : String) : REvent → Bool
  | .installState r => r == rid
  | _ => false

/-- Whether, in an event trace, an alert-end round for alert `aid`
occurs strictly before the installation of a fresh state for rule
`rid`. -/
def firesEndBeforeInstall (tr : List REvent) (aid rid : String) : Bool :=
  match tr.findIdx? (isAlertEndFor aid), tr.findIdx? (isInstallFor rid) with
  | some i, some j => i < j
  | _, _ => false

/-- Embeds `RuleEngine.register_rule` (lines 58-64): installs a state whose
debounce threshold comes from the settings. -/
def registerRule (states : RuleStates) (rule : Rule) : RuleStates :=
  dictSet states rule.id
    { rule := rule, requiredConsecutive := DETECTION_CONSECUTIVE_FRAMES }

/-- Embeds `RuleEngine.unregister_rule` (lines 66-77): when the rule is
registered, its state (alert flags included — the source zeroes them just
before the `del`, which the deletion subsumes) is removed; no callback is
invoked on this path. -/
def unregisterRule (states : RuleStates) (ruleId : String) : RuleStates :=
  match dictLookup states ruleId with
  | some _ => dictDel states ruleId
  | none => states

/-- Embeds `RuleEngine.update_rule` (lines 79-109).  Registered case: installs a
fresh `RuleState` keeping only `last_triggered` (the new state's
`required_consecutive` is the dataclass default 1, not the settings
value) and returns `(was_in_alert, old_alert_id, old_rule)`.
Unregistered case: registers the rule and returns `(False, None, None)`. -/
def updateRule (states : RuleStates) (rule : Rule) :
    RuleStates × Bool × Option String × Option Rule :=
  match dictLookup states rule.id with
  | some oldState =>
      (dictSet states rule.id
        { rule := rule
          lastTriggered := oldState.lastTriggered
          isInAlert := false
          currentAlertId := none
          consecutiveDetections := 0 },
       oldState.isInAlert, oldState.currentAlertId, some oldState.rule)
  | none => (registerRule states rule, false, none, none)

/-- Python truthiness of an optional string (`if ... and old_alert_id`):
`None` and the empty string are falsy. -/
def pyTruthyStr : Option String → Bool
  | some s => s ≠ ""
  | none => false

/-- Embeds `PipelineManager.update_rule` (pipeline_manager.py lines 180-203),
as the new engine state plus the trace of observable events.  The fresh
state is installed inside `RuleEngine.update_rule`; only afterwards, and
only when an alert was open, does the manager fire the engine's
alert-end callbacks (`fire_alert_end`, one round) and then call its
internal `_on_alert_ended` handler directly a second time. -/
def pipelineUpdateRule (states : RuleStates) (rule : Rule) :
    RuleStates × List REvent :=
  match updateRule states rule with
  | (newStates, wasInAlert, oldAlertId, oldRule) =>
    let tail : List REvent :=
      match wasInAlert, oldAlertId, oldRule with
      | true, some aid, some oldR =>
          if aid ≠ "" then
            [REvent.alertEnd (some aid) oldR.id, REvent.internalAlertEnd aid oldR.id]
          else []
      | _, _, _ => []
    (newStates, REvent.installState rule.id :: tail)

/-- Embeds `PipelineManager.remove_rule` (pipeline_manager.py lines 167-178):
unregisters the rule from the engine; no alert callback runs on this
path (the pipeline's own rule list and detection cache are not part of
the claims and are not carried). -/
def pipelineRemoveRule (states : RuleStates) (ruleId : String) :
    RuleStates × List REvent :=
  (unregisterRule states ruleId, [])

/-- Embeds `RuleEngine._handle_state_transition` (lines 299-357) on one
evaluation outcome.  `now` stands for `datetime.utcnow()` and `freshId`
for `str(uuid.uuid4())` at this step.  Returns the updated state and the
callback-round events fired. -/
def handleStateTransition (state : RuleState) (triggered : Bool)
    (now : Nat) (freshId : String) : RuleState × List REvent :=
  if triggered then
    let st1 := { state with consecutiveDetections := state.consecutiveDetections + 1 }
    if !st1.isInAlert then
      if st1.consecutiveDetections ≥ st1.requiredConsecutive then
        ({ st1 with isInAlert := true
                    lastTriggered := some now
                    currentAlertId := some freshId },
         [REvent.alertStart freshId state.rule.id])
      else (st1, [])
    else (st1, [])
  else
    let st1 := { state with consecutiveDetections := 0 }
    if st1.isInAlert then
      ({ st1 with isInAlert := false, currentAlertId := none },
       [REvent.alertEnd st1.currentAlertId state.rule.id])
    else (st1, [])

/-- Feeding a sequence of evaluation outcomes through
`_handle_state_transition`; step `n` happens at tick `n` with fresh alert
id `toString n`. -/
def runTransitions : RuleState → List Bool → Nat → RuleState × List REvent
  | st, [], _ => (st, [])
  | st, t :: ts, n =>
    let step := handleStateTransition st t n (toString n)
    let rest := runTransitions step.1 ts (n + 1)
    (rest.1, step.2 ++ rest.2)

/-- The cooldown gate of `RuleEngine.evaluate_rules` (lines 157-161): a
rule is skipped for the cycle iff it has a last-triggered instant,
`now` is strictly before `last_triggered + cooldown_seconds`, and the
rule is not currently in alert.  (It sits after the camera/enabled
filter of lines 153-155, which the claims do not touch.) -/
def cooldownSkips (state : RuleState) (now : Nat) : Bool :=
  match state.lastTriggered with
  | some lt => decide (now < lt + state.rule.cooldownSeconds) && !state.isInAlert
  | none => false

/-! ### Frame ring buffer (camera_stream.py)

`CameraStream.__post_init__` (lines 82-84) builds
`deque(maxlen=settings.FRAME_BUFFER_SIZE)` and `_read_frames_loop`
(lines 316-318) appends each captured frame; a full `deque` discards
from the opposite end, so an append keeps the newest `cap` elements. -/

def ringPush {α : Type} (cap : Nat) (buf : List α) (x : α) : List α :=
  let b := buf ++ [x]
  b.drop (b.length - cap)

def ringPushAll {α : Type} (cap : Nat) (buf : List α) (xs : List α) : List α :=
  xs.foldl (ringPush cap) buf

/-! ### Reconnect backoff (camera_stream.py)

`CameraStream._reconnect` (lines 207-247) computes
`min(initial_delay * backoff_factor ** (attempts - 1), max_delay)` after
incrementing `_reconnect_attempts`, so attempt `n ≥ 1` uses exponent
`n - 1`.  The defaults (lines 58-61) are 1.0 s initial, factor 2.0,
cap 30.0 s; all values arising from them are exact binary floats, so the
rational embedding is exact. -/

def reconnectDelay (initialDelay backoffFactor maxDelay : ℚ) (attempt : Nat) : ℚ :=
  min (initialDelay * backoffFactor ^ (attempt - 1)) maxDelay

/-! ### Frame-read failure handling (camera_stream.py)

One iteration of the failure bookkeeping of `_read_frames_loop`
(lines 281-301): a failed read increments `_consecutive_failures`; when
the counter has reached `max_consecutive_failures` it is zeroed and
`_reconnect` is entered; a successful read resets it (line 304). -/

def readStep (maxFailures : Nat) (failures : Nat) (readOk : Bool) : Nat × Bool :=
  if readOk then (0, false)
  else
    let f := failures + 1
    if f ≥ maxFailures then (0, true) else (f, false)

/-- Fold `readStep` over a list of read outcomes, returning the final
counter and how many times a reconnect was triggered. -/
def runReads (maxFailures : Nat) : Nat → List Bool → Nat × Nat
  | failures, [] => (failures, 0)
  | failures, ok :: rest =>
    let step := readStep maxFailures failures ok
    let tail := runReads maxFailures step.1 rest
    (tail.1, (if step.2 then 1 else 0) + tail.2)

/-! ### Detections and spatial relationships (sam3_service.py) -/

/-- Embeds `sam3_service.Detection` (lines 30-37): the binary mask raster is a
row-major grid of booleans, the bounding box is `(x1, y1, x2, y2)` and
`center` the stored centroid (the detector fills it with the bbox
midpoint, but `check_spatial_relationship` reads the field). -/
structure Detection where
  label : String
  confidence : ℚ
  mask : List (List Bool)
  bbox : Int × Int × Int × Int
  center : Int × Int
  area : Nat
  deriving Repr, DecidableEq

/-- Embeds `np.sum(a.mask & b.mask)` on 0/1 rasters: the number of positions
where both masks are set. -/
def maskOverlapCount (a b : List (List Bool)) : Nat :=
  ((a.zip b).map
    (fun rows => ((rows.1.zip rows.2).filter (fun px => px.1 && px.2)).length)).sum

/-- Embeds `SAM3Service.check_spatial_relationship` (lines 640-686).  The
`near` branch compares `sqrt(dx² + dy²) < 100`, which for nonnegative
reals is `dx² + dy² < 100²`; every other branch is integer/mask
arithmetic taken verbatim. -/
def check_spatial_relationship (objA objB : Detection) (relationship : String) : Bool :=
  let (aX1, aY1, aX2, aY2) := objA.bbox
  let (bX1, bY1, bX2, bY2) := objB.bbox
  if relationship = "over" then
    let aCenterX := objA.center.1
    let horizontalOverlap := decide (bX1 ≤ aCenterX) && decide (aCenterX ≤ bX2)
    let verticalPosition := decide (aY2 ≥ bY1 - 50)
    let maskOverlap := decide (0 < maskOverlapCount objA.mask objB.mask)
    horizontalOverlap && (verticalPosition || maskOverlap)
  else if relationship = "on" then
    decide (0 < maskOverlapCount objA.mask objB.mask)
  else if relationship = "inside" then
    decide (aX1 ≥ bX1) && decide (aY1 ≥ bY1) && decide (aX2 ≤ bX2) && decide (aY2 ≤ bY2)
  else if relationship = "near" then
    let aC := objA.center
    let bC := objB.center
    decide ((aC.1 - bC.1) ^ 2 + (aC.2 - bC.2) ^ 2 < 100 ^ 2)
  else false

/-! ### Recording registry (recording_service.py) -/

/-- The fields of an active recording that survive into the
stop-recording contract; writer/subprocess handles are I/O state with no
bearing on the registry discipline. -/
structure ActiveRecording where
  recordingId : String
  cameraId : String
  alertId : String
  deriving Repr, DecidableEq

/-- Embeds `RecordingService.stop_recording` (lines 334-362 and onward),
restricted to its registry effect: an id absent from
`_active_recordings` is answered with `None` and no change; a present id
has its entry removed and its metadata returned.  The post-roll sleep,
writer finalisation, thumbnailing and transcoding between the lookup
and the delete are I/O on the found entry only. -/
def stop_recording (active : List (String × ActiveRecording)) (recordingId : String) :
    Option ActiveRecording × List (String × ActiveRecording) :=
  match dictLookup active recordingId with
  | none => (none, active)
  | some recEntry => (some recEntry, dictDel active recordingId)

/-! ### Concrete fixtures used by witnesses and counterexamples -/

def exRule : Rule := ⟨"r1", "cam1", "rule one", true, 30⟩

def exRuleV2 : Rule := ⟨"r1", "cam1", "rule one v2", true, 60⟩

def exStateAlert : RuleState :=
  { rule := exRule, lastTriggered := some 5, currentAlertId := some "a1",
    isInAlert := true, consecutiveDetections := 2, requiredConsecutive := 3 }

def exEngine : RuleStates := [("r1", exStateAlert)]

def exPrimaryDet : Detection :=
  { label := "cat", confidence := 9 / 10, mask := [[false]],
    bbox := (100, 50, 140, 90), center := (120, 70), area := 0 }

def exSecondaryDet : Detection :=
  { label := "counter", confidence := 9 / 10, mask := [[false]],
    bbox := (0, 95, 300, 200), center := (150, 147), area := 0 }

def exRecRegistry : List (String × ActiveRecording) :=
  [("rec1", ⟨"rec1", "cam1", "a1"⟩)]

/-! ### Helper lemmas on the dict embedding -/

theorem dictLookup_dictSet_self {α : Type} (d : List (String × α)) (k : String) (v : α) :
    dictLookup (dictSet d k v) k = some v := by
  induction d with
  | nil => simp [dictSet, dictLookup]
  | cons p rest ih =>
    by_cases h : p.1 = k
    · simp [dictSet, dictLookup, h]
    · simp [dictSet, dictLookup, h, ih]

theorem dictLookup_dictSet_ne {α : Type} (d : List (String × α)) (k k' : String) (v : α)
    (hne : k' ≠ k) : dictLookup (dictSet d k v) k' = dictLookup d k' := by
  induction d with
  | nil => simp [dictSet, dictLookup, Ne.symm hne]
  | cons p rest ih =>
    by_cases h : p.1 = k
    · simp [dictSet, dictLookup, h, Ne.symm hne]
    · by_cases h' : p.1 = k'
      · simp [dictSet, dictLookup, h, h', hne, Ne.symm hne]
      · simp [dictSet, dictLookup, h, h', ih]

theorem dictLookup_dictDel_self {α : Type} (d : List (String × α)) (k : String) :
    dictLookup (dictDel d k) k = none := by
  induction d with
  | nil => simp [dictDel, dictLookup]
  | cons p rest ih =>
    by_cases h : p.1 = k
    · simpa [dictDel, dictLookup, h] using ih
    · simpa [dictDel, dictLookup, h] using ih

theorem dictLookup_dictDel_ne {α : Type} (d : List (String × α)) (k k' : String)
    (hne : k' ≠ k) : dictLookup (dictDel d k) k' = dictLookup d k' := by
  induction d with
  | nil => simp [dictDel, dictLookup]
  | cons p rest ih =>
    by_cases h : p.1 = k
    · simpa [dictDel, dictLookup, h, Ne.symm hne] using ih
    · by_cases h' : p.1 = k'
      · simp [dictDel, dictLookup, h, h', hne, Ne.symm hne]
      · simpa [dictDel, dictLookup, h, h'] using ih

/-! ### Helper lemmas on the engine operations -/

theorem pipelineUpdateRule_trace (states : RuleStates) (rule : Rule) (old : RuleState)
    (aid : String) (h : dictLookup states rule.id = some old)
    (halert : old.isInAlert = true) (haid : old.currentAlertId = some aid)
    (hne : aid ≠ "") :
    (pipelineUpdateRule states rule).2 =
      [REvent.installState rule.id, REvent.alertEnd (some aid) old.rule.id,
       REvent.internalAlertEnd aid old.rule.id] ∧
    (pipelineUpdateRule states rule).1 =
      dictSet states rule.id
        { rule := rule, lastTriggered := old.lastTriggered, isInAlert := false,
          currentAlertId := none, consecutiveDetections := 0 } := by
  unfold pipelineUpdateRule updateRule
  rw [h]
  simp [halert, haid, hne]

theorem ringPushAll_eq_drop {α : Type} (cap : Nat) (xs : List α) :
    ∀ buf : List α, buf.length ≤ cap →
      ringPushAll cap buf xs = (buf ++ xs).drop ((buf ++ xs).length - cap) := by
  induction xs with
  | nil =>
    intro buf hb
    simp [ringPushAll, Nat.sub_eq_zero_of_le hb]
  | cons x rest ih =>
    intro buf hb
    have step : ringPushAll cap buf (x :: rest) = ringPushAll cap (ringPush cap buf x) rest := rfl
    have hlen : (ringPush cap buf x).length ≤ cap := by
      simp [ringPush]
      omega
    rw [step, ih _ hlen]
    have hk : (buf ++ [x]).length - cap ≤ (buf ++ [x]).length := Nat.sub_le _ _
    have key : ringPush cap buf x ++ rest
        = ((buf ++ [x]) ++ rest).drop ((buf ++ [x]).length - cap) := by
      simp only [ringPush]
      exact (List.drop_append_of_le_length hk).symm
    rw [key, List.drop_drop]
    have happ : (buf ++ [x]) ++ rest = buf ++ x :: rest := by simp
    rw [happ]
    congr 1
    simp only [List.length_drop, List.length_append, List.length_cons, List.length_nil]
    omega

/-! ### Claim theorems -/

/-- C1, counterexample: replacing rule `r1` while its alert `a1` is open
emits exactly one alert-end round for `a1`, but the alert end is NOT
fired before the fresh idle state is installed — the trace places the
installation (inside `RuleEngine.update_rule`) strictly before the
alert-end round fired by `PipelineManager.update_rule`. -/
theorem update_rule_end_before_install_cex :
    (pipelineUpdateRule exEngine exRuleV2).2.countP (isAlertEndFor "a1") = 1 ∧
    firesEndBeforeInstall (pipelineUpdateRule exEngine exRuleV2).2 "a1" "r1" = false := by
  decide

/-- C1, amended: for every rule that is in alert when its definition is
replaced via `update_rule`, exactly one alert-end round is emitted for
the old alert id, synchronously within the same update call, but it
fires immediately AFTER the fresh idle `RuleState` (in-alert false,
alert id none, consecutive counter 0) is installed for the new
definition — the trace is exactly installation, then the alert-end
round, then the direct internal alert-end handler call. -/
theorem update_rule_closes_stale_alert
    (states : RuleStates) (rule : Rule) (old : RuleState) (aid : String)
    (h : dictLookup states rule.id = some old)
    (halert : old.isInAlert = true) (haid : old.currentAlertId = some aid)
    (hne : aid ≠ "") :
    (pipelineUpdateRule states rule).2.countP (isAlertEndFor aid) = 1 ∧
    (pipelineUpdateRule states rule).2 =
      [REvent.installState rule.id, REvent.alertEnd (some aid) old.rule.id,
       REvent.internalAlertEnd aid old.rule.id] ∧
    dictLookup (pipelineUpdateRule states rule).1 rule.id =
      some { rule := rule, lastTriggered := old.lastTriggered, isInAlert := false,
             currentAlertId := none, consecutiveDetections := 0,
             requiredConsecutive := 1 } := by
  obtain ⟨htr, hst⟩ := pipelineUpdateRule_trace states rule old aid h halert haid hne
  refine ⟨?_, htr, ?_⟩
  · rw [htr]
    simp [List.countP_cons, isAlertEndFor]
  · rw [hst]
    exact dictLookup_dictSet_self _ _ _

theorem update_rule_closes_stale_alert_witness :
    dictLookup exEngine exRuleV2.id = some exStateAlert ∧
    (pipelineUpdateRule exEngine exRuleV2).2.countP (isAlertEndFor "a1") = 1 :=
  ⟨rfl, (update_rule_closes_stale_alert exEngine exRuleV2 exStateAlert "a1" rfl rfl rfl
      (by decide)).1⟩

/-- C9: when a rule is already registered, `update_rule` installs a
fresh `RuleState` that keeps the previous state's `last_triggered`
(so an in-progress cooldown carries over) while `is_in_alert` becomes
false, `current_alert_id` becomes none and `consecutive_detections`
becomes 0; every other rule's state is untouched. -/
theorem update_rule_preserves_cooldown
    (states : RuleStates) (rule : Rule) (old : RuleState)
    (h : dictLookup states rule.id = some old) :
    dictLookup (updateRule states rule).1 rule.id =
      some { rule := rule, lastTriggered := old.lastTriggered, isInAlert := false,
             currentAlertId := none, consecutiveDetections := 0,
             requiredConsecutive := 1 } ∧
    (∀ rid, rid ≠ rule.id →
      dictLookup (updateRule states rule).1 rid = dictLookup states rid) := by
  unfold updateRule
  rw [h]
  exact ⟨dictLookup_dictSet_self _ _ _, fun rid hr => dictLookup_dictSet_ne _ _ _ _ hr⟩

theorem update_rule_preserves_cooldown_witness :
    dictLookup exEngine exRuleV2.id = some exStateAlert ∧
    dictLookup (updateRule exEngine exRuleV2).1 exRuleV2.id =
      some { rule := exRuleV2, lastTriggered := some 5, isInAlert := false,
             currentAlertId := none, consecutiveDetections := 0,
             requiredConsecutive := 1 } :=
  ⟨rfl, (update_rule_preserves_cooldown exEngine exRuleV2 exStateAlert rfl).1⟩

/-- C10: removing a rule that currently has an open alert deletes its
state and emits no alert-end event at all — no consumer sees an end for
that alert id through the removal path — while all other rules' states
are unchanged; by contrast, replacing the same rule through the
update path does emit exactly one alert-end round for that alert id. -/
theorem unregister_rule_silent
    (states : RuleStates) (ruleId : String) (old : RuleState) (aid : String)
    (h : dictLookup states ruleId = some old)
    (halert : old.isInAlert = true) (haid : old.currentAlertId = some aid) :
    (pipelineRemoveRule states ruleId).2 = [] ∧
    dictLookup (pipelineRemoveRule states ruleId).1 ruleId = none ∧
    (∀ rid, rid ≠ ruleId →
      dictLookup (pipelineRemoveRule states ruleId).1 rid = dictLookup states rid) ∧
    (∀ rule : Rule, rule.id = ruleId → aid ≠ "" →
      (pipelineUpdateRule states rule).2.countP (isAlertEndFor aid) = 1) := by
  refine ⟨rfl, ?_, ?_, ?_⟩
  · simp only [pipelineRemoveRule, unregisterRule, h]
    exact dictLookup_dictDel_self _ _
  · intro rid hr
    simp only [pipelineRemoveRule, unregisterRule, h]
    exact dictLookup_dictDel_ne _ _ _ hr
  · intro rule hrid hne
    subst hrid
    obtain ⟨htr, _⟩ := pipelineUpdateRule_trace states rule old aid h halert haid hne
    rw [htr]
    simp [List.countP_cons, isAlertEndFor]

theorem unregister_rule_silent_witness :
    dictLookup exEngine "r1" = some exStateAlert ∧
    dictLookup (pipelineRemoveRule exEngine "r1").1 "r1" = none :=
  ⟨rfl, (unregister_rule_silent exEngine "r1" exStateAlert "a1" rfl rfl rfl).2.1⟩

/-- C8: stopping a recording whose id is not (or no longer) in the
active-recordings registry returns none and leaves the registry — and
thus every other active recording — unchanged; in particular a second
stop of an already-stopped recording is such a no-op. -/
theorem stop_recording_defensive
    (active : List (String × ActiveRecording)) (recordingId : String)
    (h : dictLookup active recordingId = none) :
    stop_recording active recordingId = (none, active) ∧
    (∀ (reg : List (String × ActiveRecording)) (rid : String),
      stop_recording ((stop_recording reg rid).2) rid =
        (none, (stop_recording reg rid).2)) := by
  constructor
  · simp [stop_recording, h]
  · intro reg rid
    cases hl : dictLookup reg rid with
    | none => simp [stop_recording, hl]
    | some r => simp [stop_recording, hl, dictLookup_dictDel_self]

theorem stop_recording_defensive_witness :
    dictLookup exRecRegistry "rec2" = none ∧
    stop_recording exRecRegistry "rec2" = (none, exRecRegistry) :=
  ⟨rfl, (stop_recording_defensive exRecRegistry "rec2" rfl).1⟩

/-- C2: with required-consecutive 3, the evaluation sequence
[T, T, F, T, T, T] opens an alert exactly once, on the 6th evaluation
(no alert through the first five); moreover each triggered evaluation
increments the consecutive counter, each non-triggered one resets it to
0, and a triggered evaluation opens an alert exactly when the rule is
not already in alert and the incremented counter reaches the required
count. -/
theorem debounce_three_consecutive (r : Rule) :
    ((runTransitions { rule := r, requiredConsecutive := 3 }
        [true, true, false, true, true, true] 0).2.countP isAlertStartEvent = 1) ∧
    ((runTransitions { rule := r, requiredConsecutive := 3 }
        [true, true, false, true, true] 0).2.countP isAlertStartEvent = 0) ∧
    (∀ (st : RuleState) (n : Nat) (fid : String),
      ((handleStateTransition st true n fid).1).consecutiveDetections =
        st.consecutiveDetections + 1) ∧
    (∀ (st : RuleState) (n : Nat) (fid : String),
      ((handleStateTransition st false n fid).1).consecutiveDetections = 0) ∧
    (∀ (st : RuleState) (n : Nat) (fid : String),
      (handleStateTransition st true n fid).2.countP isAlertStartEvent = 1 ↔
        (st.isInAlert = false ∧
         st.requiredConsecutive ≤ st.consecutiveDetections + 1)) := by
  refine ⟨rfl, rfl, ?_, ?_, ?_⟩
  · intro st n fid
    simp only [handleStateTransition]
    split <;> (try split) <;> (try split) <;> simp_all
  · intro st n fid
    simp only [handleStateTransition]
    split <;> (try split) <;> simp_all
  · intro st n fid
    by_cases ha : st.isInAlert
    · simp [handleStateTransition, ha]
    · by_cases hc : st.requiredConsecutive ≤ st.consecutiveDetections + 1
      · simp [handleStateTransition, ha, hc, isAlertStartEvent, List.countP_cons]
      · simp [handleStateTransition, ha, hc]

/-- C3: the per-cycle cooldown gate skips a rule iff its last-triggered
instant is within `cooldown_seconds` of now AND the rule is not
currently in alert; in particular a rule with cooldown 30 whose alert
opened at tick 0 and is still open at tick 10 is not skipped. -/
theorem cooldown_gate_iff :
    (∀ (st : RuleState) (now : Nat), cooldownSkips st now = true ↔
      ((∃ lt, st.lastTriggered = some lt ∧ now < lt + st.rule.cooldownSeconds) ∧
       st.isInAlert = false)) ∧
    cooldownSkips { rule := exRule, lastTriggered := some 0,
                    currentAlertId := some "a1", isInAlert := true,
                    consecutiveDetections := 1, requiredConsecutive := 3 } 10 = false := by
  constructor
  · intro st now
    cases hlt : st.lastTriggered with
    | none => simp [cooldownSkips, hlt]
    | some lt => simp [cooldownSkips, hlt]
  · decide

/-- C4: for capacity `cap`, after pushing more than `cap` frames the
ring buffer holds exactly `cap` frames, namely the last `cap` pushed
ones in push order (FIFO eviction of the oldest). -/
theorem ring_buffer_bound {α : Type} (cap : Nat) (xs : List α) (h : cap < xs.length) :
    (ringPushAll cap [] xs).length = cap ∧
    ringPushAll cap [] xs = xs.drop (xs.length - cap) := by
  have he := ringPushAll_eq_drop cap xs [] (by simp)
  simp only [List.nil_append] at he
  refine ⟨?_, he⟩
  rw [he, List.length_drop]
  omega

theorem ring_buffer_bound_witness :
    150 < (List.range' 1 200).length ∧
    (ringPushAll 150 [] (List.range' 1 200)).length = 150 :=
  ⟨by simp, (ring_buffer_bound 150 (List.range' 1 200) (by simp)).1⟩

/-- C5: the reconnect delay for attempt `n` is
`min(initial * factor ^ (n - 1), max)`; with initial 1, factor 2 and
cap 30 the delays for attempts 1..7 are 1, 2, 4, 8, 16, 30, 30, the
sequence is monotonically non-decreasing, and it never exceeds the
cap. -/
theorem backoff_sequence :
    (∀ (i f m : ℚ) (n : Nat), reconnectDelay i f m n = min (i * f ^ (n - 1)) m) ∧
    [1, 2, 3, 4, 5, 6, 7].map (reconnectDelay 1 2 30) = [1, 2, 4, 8, 16, 30, 30] ∧
    (∀ n : Nat, reconnectDelay 1 2 30 n ≤ reconnectDelay 1 2 30 (n + 1)) ∧
    (∀ n : Nat, reconnectDelay 1 2 30 n ≤ 30) := by
  refine ⟨fun i f m n => rfl, ?_, ?_, ?_⟩
  · norm_num [reconnectDelay, min_def]
  · intro n
    unfold reconnectDelay
    refine min_le_min ?_ le_rfl
    have h2 : (2 : ℚ) ^ (n - 1) ≤ 2 ^ (n + 1 - 1) :=
      pow_le_pow_right₀ (by norm_num) (by omega)
    simpa using h2
  · intro n
    exact min_le_right _ _

/-- C6: the spatial relationship `over` holds iff the primary's stored
centroid x lies within the secondary's bounding-box x-span AND (the
primary's bottom edge `y2` is at or above the secondary's top edge `y1`
minus 50 pixels, OR the two masks' pixel intersection is non-empty); in
particular primary bbox (100,50,140,90) against secondary bbox
(0,95,300,200) with zero mask overlap evaluates to true. -/
theorem spatial_over_iff :
    (∀ a b : Detection,
      check_spatial_relationship a b "over" = true ↔
        ((b.bbox.1 ≤ a.center.1 ∧ a.center.1 ≤ b.bbox.2.2.1) ∧
         (b.bbox.2.1 - 50 ≤ a.bbox.2.2.2 ∨ 0 < maskOverlapCount a.mask b.mask))) ∧
    check_spatial_relationship exPrimaryDet exSecondaryDet "over" = true ∧
    maskOverlapCount exPrimaryDet.mask exSecondaryDet.mask = 0 := by
  refine ⟨?_, by decide, by decide⟩
  intro a b
  obtain ⟨la, ca, ma, ⟨aX1, aY1, aX2, aY2⟩, ⟨aCx, aCy⟩, ara⟩ := a
  obtain ⟨lb, cb, mb, ⟨bX1, bY1, bX2, bY2⟩, ⟨bCx, bCy⟩, arb⟩ := b
  simp [check_spatial_relationship, ge_iff_le]

/-- C7, counterexample: with the default threshold 10, ten consecutive
failed reads DO trigger a reconnect — the code enters reconnect when
the counter reaches the threshold, so the claim that reads 1 through 10
failing does not yet trigger a reconnect is false at this input. -/
theorem reconnect_at_threshold_cex :
    (runReads 10 0 (List.replicate 10 false)).2 = 1 := by decide

/-- C7, amended: each failed read increments the consecutive-failure
counter and a reconnect is triggered exactly when the counter reaches
the threshold (default 10): 1 through 9 consecutive failures trigger no
reconnect and leave the counter equal to the failure count, the 10th
consecutive failure triggers one reconnect (zeroing the counter), and a
successful read resets the counter to 0. -/
theorem reconnect_at_threshold (n : Nat) (h : n < 10) :
    runReads 10 0 (List.replicate n false) = (n, 0) ∧
    runReads 10 0 (List.replicate 10 false) = (0, 1) ∧
    (∀ failures, readStep 10 failures true = (0, false)) := by
  have hall : ∀ m : Nat, m < 10 →
      runReads 10 0 (List.replicate m false) = (m, 0) := by decide
  exact ⟨hall n h, by decide, fun failures => rfl⟩

theorem reconnect_at_threshold_witness :
    9 < 10 ∧ runReads 10 0 (List.replicate 9 false) = (9, 0) :=
  ⟨by decide, (reconnect_at_threshold 9 (by decide)).1⟩

end PD
